import Mathlib

/-
Verification of the persistence-adapter specification against the
gun-relay repository (src/gun-relay.js, src/unnamed/part_000,
src/unnamed/part_001).

The embedding models the JavaScript values that flow through the Gun
message handlers (flat field maps per the data model: values are
scalars, booleans, null or string references), the serialized JSON
payloads held in the gun_data table, the PostgreSQL storage adapter of
src/gun-relay.js and src/unnamed/part_001, and the MySQL wire handlers
of src/unnamed/part_000.  Fallible database calls are Except values;
every try/catch in the source is an explicit match on the Except.
-/

namespace GunRelay

/-- Primitive JavaScript value as it appears in a Gun node field:
undefined, null, boolean, number, or string (string also covers
reference souls). -/
inductive JSPrim where
  | undef
  | null
  | bool (b : Bool)
  | num (n : Int)
  | str (s : String)
deriving DecidableEq, Repr

/-- JS truthiness of a primitive: undefined, null, false, 0 and the
empty string are falsy. -/
def JSPrim.truthy : JSPrim → Bool
  | .undef => false
  | .null => false
  | .bool b => b
  | .num n => n != 0
  | .str s => !s.isEmpty

/-- JavaScript value handed to the put handlers: a primitive, or an
object mapping field names to primitives (a Gun node is a flat field
map). -/
inductive JSVal where
  | prim (p : JSPrim)
  | obj (fields : List (String × JSPrim))
deriving DecidableEq, Repr

/-- JS truthiness of a value: every object is truthy. -/
def JSVal.truthy : JSVal → Bool
  | .prim p => p.truthy
  | .obj _ => true

/-- Whether the JS expression typeof v evaluates to the string
object: true for objects and for null. -/
def JSVal.typeofObject : JSVal → Bool
  | .prim .null => true
  | .prim _ => false
  | .obj _ => true

/-- Primitive JSON value stored in the database payloads. -/
inductive JsonPrim where
  | null
  | bool (b : Bool)
  | num (n : Int)
  | str (s : String)
deriving DecidableEq, Repr

/-- JSON value stored in a gun_data row: a primitive or a flat field
map, mirroring the serialized Gun node snapshots. -/
inductive Json where
  | prim (p : JsonPrim)
  | obj (fields : List (String × JsonPrim))
deriving DecidableEq, Repr

/-- Serialization of one primitive by JSON.stringify: undefined has no
JSON form. -/
def stringifyPrim : JSPrim → Option JsonPrim
  | .undef => none
  | .null => some .null
  | .bool b => some (.bool b)
  | .num n => some (.num n)
  | .str s => some (.str s)

/-- Serialization of an object field list by JSON.stringify: fields
whose value is undefined are dropped from the output. -/
def stringifyFields : List (String × JSPrim) → List (String × JsonPrim)
  | [] => []
  | (k, v) :: rest =>
    match stringifyPrim v with
    | some j => (k, j) :: stringifyFields rest
    | none => stringifyFields rest

/-- JSON.stringify of a JavaScript value: undefined serializes to no
value at all, objects drop their undefined-valued fields. -/
def jsonStringify : JSVal → Option Json
  | .prim p => (stringifyPrim p).map .prim
  | .obj fs => some (.obj (stringifyFields fs))

/-- Point lookup in an association-list table keyed by strings,
modelling SELECT by primary key. -/
def rowLookup {α : Type} : List (String × α) → String → Option α
  | [], _ => none
  | (k2, v) :: rest, k => if k2 = k then some v else rowLookup rest k

/-- Whole-row write into an association-list table: replaces the value
stored under the key, or appends a fresh row. -/
def setRow {α : Type} : List (String × α) → String → α → List (String × α)
  | [], k, v => [(k, v)]
  | (k2, w) :: rest, k, v =>
    if k2 = k then (k, v) :: rest else (k2, w) :: setRow rest k v

/-- Row deletion from an association-list table. -/
def delRow {α : Type} : List (String × α) → String → List (String × α)
  | [], _ => []
  | (k2, w) :: rest, k =>
    if k2 = k then delRow rest k else (k2, w) :: delRow rest k

/-- Field lookup inside a stored JSON object payload. -/
def jsonField (j : Json) (k : String) : Option JsonPrim :=
  match j with
  | .obj fs => rowLookup fs k
  | .prim _ => none

/-- JS truthiness of a JSON value retrieved from the database: used by
the result.rows value-or-null expressions in the adapters. -/
def jsonTruthy : Json → Bool
  | .prim .null => false
  | .prim (.bool b) => b
  | .prim (.num n) => n != 0
  | .prim (.str s) => !s.isEmpty
  | .obj _ => true

/-- State of the PostgreSQL client of src/gun-relay.js: whether
pgClient is null, the pgConnected flag, whether an issued query
currently throws (connection dropped underneath the flag), and the
gun_data table contents. -/
structure Conn where
  clientNull : Bool
  connected : Bool
  failing : Bool
  table : List (String × Json)
deriving DecidableEq, Repr

/-- The SELECT value FROM gun_data WHERE key query: throws when the
connection is failing, otherwise returns the row if present. -/
def querySelectValue (st : Conn) (key : String) : Except String (Option Json) :=
  if st.failing then .error "select failed" else .ok (rowLookup st.table key)

/-- The INSERT ... ON CONFLICT (key) DO UPDATE SET value =
EXCLUDED.value query of src/gun-relay.js lines 76-82 (and the
part_001 variant SET value, line 57-58): the stored value is replaced
wholesale by the new payload. -/
def queryUpsertWhole (st : Conn) (key : String) (j : Json) : Except String Conn :=
  if st.failing then .error "insert failed"
  else .ok { st with table := setRow st.table key j }

/-- The DELETE FROM gun_data WHERE key query of src/gun-relay.js
line 91. -/
def queryDeleteKey (st : Conn) (key : String) : Except String Conn :=
  if st.failing then .error "delete failed"
  else .ok { st with table := delRow st.table key }

/-- gunStorageAdapter.get of src/gun-relay.js lines 62-71: returns
null when the client is absent or disconnected, reads the row, applies
the value-or-null coercion, and the catch branch logs and returns
null.  The result is always an ok value: the catch swallows every
query error. -/
def gunStorageGet (st : Conn) (key : String) : Except String (Option Json) :=
  let body : Except String (Option Json) :=
    if st.clientNull || !st.connected then .ok none
    else do
      let v ← querySelectValue st key
      pure (match v with
        | some j => if jsonTruthy j then some j else none
        | none => none)
  match body with
  | .ok v => .ok v
  | .error _ => .ok none

/-- The value parameter passed by gunStorageAdapter.put: a string is
passed through unchanged, anything else goes through JSON.stringify
(src/gun-relay.js line 81).  The driver-level JSONB validation of raw
string payloads is not modelled; the claims exercise object values. -/
def pgPutParam : JSVal → Option Json
  | .prim (.str s) => some (.prim (.str s))
  | v => jsonStringify v

/-- gunStorageAdapter.put of src/gun-relay.js lines 73-86: returns
silently when the client is absent or disconnected, otherwise runs the
whole-value upsert; the catch branch logs and returns, leaving the
table unchanged.  Always resolves (never an error). -/
def gunStoragePut (st : Conn) (key : String) (value : JSVal) : Except String Conn :=
  let body : Except String Conn :=
    if st.clientNull || !st.connected then .ok st
    else
      match pgPutParam value with
      | some j => queryUpsertWhole st key j
      | none => .error "undefined parameter"
  match body with
  | .ok s => .ok s
  | .error _ => .ok st

/-- gunStorageAdapter.del of src/gun-relay.js lines 88-95. -/
def gunStorageDel (st : Conn) (key : String) : Except String Conn :=
  let body : Except String Conn :=
    if st.clientNull || !st.connected then .ok st
    else queryDeleteKey st key
  match body with
  | .ok s => .ok s
  | .error _ => .ok st

/-- The state reached after gunStorageAdapter.put resolves. -/
def gunPutState (st : Conn) (key : String) (v : JSVal) : Conn :=
  match gunStoragePut st key v with
  | .ok s => s
  | .error _ => st

/-- The value gunStorageAdapter.get resolves to. -/
def gunGetVal (st : Conn) (key : String) : Option Json :=
  match gunStorageGet st key with
  | .ok v => v
  | .error _ => none

/-- pgAdapter.get of src/unnamed/part_001 lines 43-52: like the
gun-relay variant but guarded only by the pgClient null check. -/
def p1AdapterGet (st : Conn) (key : String) : Except String (Option Json) :=
  let body : Except String (Option Json) :=
    if st.clientNull then .ok none
    else do
      let v ← querySelectValue st key
      pure (match v with
        | some j => if jsonTruthy j then some j else none
        | none => none)
  match body with
  | .ok v => .ok v
  | .error _ => .ok none

/-- pgAdapter.put of src/unnamed/part_001 lines 53-64: whole-value
upsert of the raw value (the driver serializes it for the JSONB
column); the catch branch logs and returns. -/
def p1AdapterPut (st : Conn) (key : String) (value : JSVal) : Except String Conn :=
  let body : Except String Conn :=
    if st.clientNull then .ok st
    else
      match jsonStringify value with
      | some j => queryUpsertWhole st key j
      | none => .error "undefined parameter"
  match body with
  | .ok s => .ok s
  | .error _ => .ok st

/-- A cell of the MySQL gun_data table of src/unnamed/part_000: the
LONGTEXT gun_value column holds either well-formed serialized JSON or
corrupt text on which JSON.parse throws. -/
inductive Stored where
  | wellFormed (j : Json)
  | malformed
deriving DecidableEq, Repr

/-- Outcome of JSON.parse on a stored gun_value text. -/
def parseStored : Stored → Option Json
  | .wellFormed j => some j
  | .malformed => none

/-- Inbound Gun put message as seen by the handler of
src/unnamed/part_000: the msg put member is absent or a map from souls
to nodes. -/
structure PutMsg where
  putMap : Option (List (String × JSVal))
deriving DecidableEq, Repr

/-- The batch built by the for loop of src/unnamed/part_000 lines
73-77: entries whose node is falsy or not of object type are skipped,
the rest are serialized with JSON.stringify. -/
def batchOf (m : PutMsg) : List (String × Json) :=
  match m.putMap with
  | none => []
  | some entries =>
    entries.foldr (fun e acc =>
      if e.2.truthy && e.2.typeofObject then
        match jsonStringify e.2 with
        | some j => (e.1, j) :: acc
        | none => acc
      else acc) []

/-- Store calls issued by one invocation of the put handler of
src/unnamed/part_000 lines 69-86: nothing when msg put is absent or
the batch is empty, otherwise exactly one multi-row INSERT. -/
def onPutCalls (m : PutMsg) : List (List (String × Json)) :=
  match m.putMap with
  | none => []
  | some _ => if (batchOf m).isEmpty then [] else [batchOf m]

/-- Store calls issued over a sequence of put events: the handler runs
once per event and has no buffering between events. -/
def putCallsOfEvents : List PutMsg → List (List (String × Json))
  | [] => []
  | m :: rest => onPutCalls m ++ putCallsOfEvents rest

/-- Effect of the multi-row INSERT ... ON DUPLICATE KEY UPDATE
gun_value = VALUES(gun_value) statement on the MySQL table: each pair
replaces the stored row value wholesale. -/
def applyBatch (t : List (String × Stored)) (b : List (String × Json)) :
    List (String × Stored) :=
  b.foldl (fun t2 e => setRow t2 e.1 (Stored.wellFormed e.2)) t

/-- Adapter-visible state of the MySQL relay of src/unnamed/part_000:
the pool connectivity and the gun_data table.  The source keeps no
pending buffer, no timers and no retry queue, so the state has no such
component. -/
structure MyState where
  connected : Bool
  table : List (String × Stored)
deriving DecidableEq, Repr

/-- Events driving the MySQL relay: an inbound put message, or the
keep-alive loop of src/unnamed/part_000 lines 220-229 observing the
pool going down or coming back up. -/
inductive BusEv where
  | mutate (m : PutMsg)
  | connDown
  | connUp
deriving DecidableEq, Repr

/-- One step of the relay.  A put event while connected applies its
single batched INSERT; while disconnected the execute rejects and the
catch of line 85 only logs: nothing is buffered and no retry is
scheduled, so the state is left exactly as it was. -/
def stepEv (st : MyState) (e : BusEv) : MyState :=
  match e with
  | .connDown => { st with connected := false }
  | .connUp => { st with connected := true }
  | .mutate m =>
    match onPutCalls m with
    | [] => st
    | b :: _ =>
      if st.connected then { st with table := applyBatch st.table b }
      else st

/-- Run of the relay over a list of events. -/
def runEvents (st : MyState) : List BusEv → MyState
  | [] => st
  | e :: rest => runEvents (stepEv st e) rest

/-- Inbound Gun get message: its message identifier (the correlation
token echoed in the reply) and the soul requested under the get
member, absent when the message carries none. -/
structure GetMsg where
  msgId : String
  soulField : Option String
deriving DecidableEq, Repr

/-- One re-injection emitted onto the bus by the get handler of
src/unnamed/part_000 line 96: acknowledgement token, soul, and the
parsed node snapshot. -/
structure Injection where
  ack : String
  soul : String
  node : Json
deriving DecidableEq, Repr

/-- Result of one get-handler invocation: the emitted re-injections
and whether the catch branch logged an error. -/
structure GetOutcome where
  injections : List Injection
  errorLogged : Bool
deriving DecidableEq, Repr

/-- Body of the try block of the get handler, src/unnamed/part_000
lines 92-97: the execute throws while disconnected; an absent row
yields no injection; a present row is parsed by JSON.parse, which
throws on malformed text; a parsed node is emitted once with the
original correlation token. -/
def getBody (st : MyState) (qsoul : String) (ackId : String) :
    Except String (List Injection) :=
  if !st.connected then .error "execute failed"
  else
    match rowLookup st.table qsoul with
    | none => .ok []
    | some sv =>
      match parseStored sv with
      | some node => .ok [{ ack := ackId, soul := qsoul, node := node }]
      | none => .error "JSON parse failed"

/-- The get handler of src/unnamed/part_000 lines 88-98: returns
without store access when the soul member is absent or falsy;
otherwise runs the try body, and the catch branch logs the error and
emits nothing.  The function is total: no error escapes the catch. -/
def onGet (st : MyState) (msg : GetMsg) : GetOutcome :=
  match msg.soulField with
  | none => { injections := [], errorLogged := false }
  | some s =>
    if s.isEmpty then { injections := [], errorLogged := false }
    else
      match getBody st s msg.msgId with
      | .ok is => { injections := is, errorLogged := false }
      | .error _ => { injections := [], errorLogged := true }

/-- In-flight database writes started by the put handler and not yet
resolved: each handler invocation awaits its own execute, so two
invocations overlap freely. -/
structure FlightState where
  inflight : List (List (String × Json))
deriving DecidableEq, Repr

/-- Interleaving events: a put message arrives and its execute starts
immediately, or a previously started execute resolves. -/
inductive FlightEv where
  | arrive (m : PutMsg)
  | complete (i : Nat)
deriving DecidableEq, Repr

/-- One interleaving step: arrival appends the started execute (the
handler of src/unnamed/part_000 takes no lock and consults no per-soul
queue before calling db.execute); completion removes one. -/
def flightStep (s : FlightState) (e : FlightEv) : FlightState :=
  match e with
  | .arrive m => { inflight := s.inflight ++ onPutCalls m }
  | .complete i => { inflight := s.inflight.eraseIdx i }

/-- Run of the interleaving machine. -/
def runFlight (s : FlightState) : List FlightEv → FlightState
  | [] => s
  | e :: rest => runFlight (flightStep s e) rest

/-- Number of in-flight writes touching a given soul. -/
def inflightFor (soul : String) (s : FlightState) : Nat :=
  s.inflight.countP (fun b => b.any (fun e => e.1 == soul))

/-- Actions a shutdown handler can take: close the pool, close the
HTTP server, exit, or write a row to the store. -/
inductive ShutAct where
  | dbEnd
  | serverClose
  | procExit (code : Nat)
  | storeUpsert (soul : String)
deriving DecidableEq, Repr

/-- The SIGINT handler of src/unnamed/part_000 lines 209-214 (the
src/gun-relay.js lines 399-425 handler is the same shape with promise
chaining): close the pool when present, close the server, exit.  No
store statement appears anywhere in either handler. -/
def sigintActs (dbNull : Bool) : List ShutAct :=
  (if dbNull then [] else [ShutAct.dbEnd]) ++
    [ShutAct.serverClose, ShutAct.procExit 0]

/-- Whether a shutdown action writes to the store. -/
def isStoreWrite : ShutAct → Bool
  | .storeUpsert _ => true
  | _ => false

/-- Value handed to a CORS callback: an error and the allow flag. -/
structure CorsDecision where
  err : Option String
  allow : Bool
deriving DecidableEq, Repr

/-- JS falsiness of the request origin argument: undefined (no Origin
header) and the empty string are falsy. -/
def originFalsy (o : Option String) : Bool :=
  match o with
  | none => true
  | some s => s.isEmpty

/-- Membership of the request origin in the ALLOWED_ORIGINS list. -/
def listedOrigin (allowed : List String) (o : Option String) : Bool :=
  match o with
  | none => false
  | some s => allowed.contains s

/-- CORS origin callback of src/gun-relay.js lines 104-116: both
branches call back with null and true; the second component records
whether the warning branch (non-listed origin) ran. -/
def corsOriginGunRelay (allowed : List String) (origin : Option String) :
    CorsDecision × Bool :=
  if originFalsy origin || allowed.contains "*" || listedOrigin allowed origin then
    ({ err := none, allow := true }, false)
  else
    ({ err := none, allow := true }, true)

/-- CORS origin callback of src/unnamed/part_000 lines 108-113: an
unconditional allow. -/
def corsOriginMySQL (_origin : Option String) : CorsDecision :=
  { err := none, allow := true }

/-- Concrete node writing field a. -/
def nodeA : JSVal := JSVal.obj [("a", JSPrim.num 1)]

/-- Concrete node writing field b. -/
def nodeB : JSVal := JSVal.obj [("b", JSPrim.num 2)]

/-- Put message mutating field a of entity s. -/
def msgA : PutMsg := { putMap := some [("s", nodeA)] }

/-- Put message mutating field b of entity s. -/
def msgB : PutMsg := { putMap := some [("s", nodeB)] }

/-- Put message for entity s whose only field value is undefined. -/
def msgUndefField : PutMsg :=
  { putMap := some [("s", JSVal.obj [("f", JSPrim.undef)])] }

/-- Healthy PostgreSQL client over an empty table. -/
def conn0 : Conn :=
  { clientNull := false, connected := true, failing := false, table := [] }

/-- Healthy MySQL relay over an empty table. -/
def my0 : MyState := { connected := true, table := [] }

/-- Serialized form of the node writing field a. -/
def jNodeA : Json := Json.obj [("a", JsonPrim.num 1)]

/-- Connected MySQL relay whose table holds one well-formed row for
entity s. -/
def myWell : MyState :=
  { connected := true, table := [("s", Stored.wellFormed jNodeA)] }

/-- Connected MySQL relay whose table holds one malformed row for
entity s. -/
def myBad : MyState :=
  { connected := true, table := [("s", Stored.malformed)] }

/-- Read request for entity s with correlation token q1. -/
def qMsg : GetMsg := { msgId := "q1", soulField := some "s" }

/-- The store calls of one put event, rewritten through its batch. -/
theorem onPutCalls_eq_batch (m : PutMsg) :
    onPutCalls m = if (batchOf m).isEmpty then [] else [batchOf m] := by
  rcases m with ⟨pm⟩
  cases pm with
  | none => rfl
  | some es => rfl

/-- C1: the durable-store upsert is claimed to be a field-wise merge,
with upsert of a-only then b-only snapshots for one id leaving get
returning both fields.  Evaluating the code at that input: both the
PostgreSQL adapter of src/gun-relay.js (ON CONFLICT DO UPDATE SET
value = EXCLUDED.value) and the MySQL put handler of
src/unnamed/part_000 (ON DUPLICATE KEY UPDATE gun_value =
VALUES(gun_value)) replace the stored value wholesale: after writing
the a field and then the b field of entity s, get returns only the b
field and the a field is gone. -/
theorem c1_upsert_replaces_whole_value :
    gunGetVal (gunPutState (gunPutState conn0 "s" nodeA) "s" nodeB) "s"
        = some (Json.obj [("b", JsonPrim.num 2)]) ∧
    jsonField ((gunGetVal (gunPutState (gunPutState conn0 "s" nodeA) "s" nodeB)
        "s").getD (Json.obj [])) "a" = none ∧
    rowLookup (runEvents my0 [BusEv.mutate msgA, BusEv.mutate msgB]).table "s"
        = some (Stored.wellFormed (Json.obj [("b", JsonPrim.num 2)])) := by
  decide

/-- C2 counterexample: two mutation events for the same entity id
(the code has no debounce timer, so their spacing never matters)
produce two store calls, refuting the claimed exactly-one upsert. -/
theorem c2_two_events_two_calls :
    (putCallsOfEvents [msgA, msgB]).length = 2 ∧
    ¬ (putCallsOfEvents [msgA, msgB]).length = 1 := by
  decide

/-- C2 amended: the put handler performs no coalescing at all: every
put event whose batch is nonempty immediately issues exactly one store
call containing exactly that event's serialized nodes, so a sequence
of events produces one call per nonempty-batch event. -/
theorem c2_each_event_flushes_immediately (evs : List PutMsg) :
    putCallsOfEvents evs = (evs.map batchOf).filter (fun b => !b.isEmpty) := by
  induction evs with
  | nil => rfl
  | cons m rest ih =>
    simp only [putCallsOfEvents, onPutCalls_eq_batch, ih, List.map_cons,
      List.filter_cons]
    cases h : (batchOf m).isEmpty <;> simp [h]

/-- C3 counterexample: a mutation accepted while the store is
unreachable is dropped on the floor: after the trace disconnect,
mutate, reconnect the relay state is identical to the state of the
trace in which the mutation never arrived, and the store holds nothing
for the entity, so connectivity returning can never get it written. -/
theorem c3_outage_mutation_lost :
    runEvents my0 [BusEv.connDown, BusEv.mutate msgA, BusEv.connUp]
        = runEvents my0 [BusEv.connDown, BusEv.connUp] ∧
    rowLookup (runEvents my0
        [BusEv.connDown, BusEv.mutate msgA, BusEv.connUp]).table "s" = none := by
  decide

/-- C3 amended: when the store is unreachable a put event leaves the
adapter state completely unchanged: the failed write is only logged,
nothing is merged back into any buffer and no retry is scheduled, so
the mutation is lost (not merely delayed). -/
theorem c3_mutation_dropped_while_down (st : MyState) (m : PutMsg)
    (h : st.connected = false) :
    stepEv st (BusEv.mutate m) = st := by
  rcases st with ⟨c, t⟩
  cases c with
  | true => simp at h
  | false => cases h2 : onPutCalls m <;> simp [stepEv, h2]

/-- Witness for the amended C3 theorem at a concrete disconnected
state and mutation. -/
theorem c3_mutation_dropped_while_down_witness :
    stepEv { connected := false, table := [] } (BusEv.mutate msgA)
      = { connected := false, table := [] } :=
  c3_mutation_dropped_while_down { connected := false, table := [] } msgA rfl

/-- C4: for an inbound read request whose soul resolves from a
connected store, exactly one injection is emitted, carrying the parsed
snapshot and the original correlation token; when the store holds no
row for the soul, nothing is emitted. -/
theorem c4_read_request_injection (st : MyState) (msg : GetMsg) (qs : String)
    (node : Json) (hconn : st.connected = true)
    (hsoul : msg.soulField = some qs) (hne : qs.isEmpty = false) :
    (rowLookup st.table qs = some (Stored.wellFormed node) →
      (onGet st msg).injections = [{ ack := msg.msgId, soul := qs, node := node }]) ∧
    (rowLookup st.table qs = none → (onGet st msg).injections = []) := by
  constructor <;> intro hrow <;>
    simp [onGet, getBody, hsoul, hne, hconn, hrow, parseStored]

/-- Witness for C4 at a concrete store holding one well-formed row. -/
theorem c4_read_request_injection_witness :
    (onGet myWell qMsg).injections
      = [{ ack := qMsg.msgId, soul := "s", node := jNodeA }] :=
  (c4_read_request_injection myWell qMsg "s" jNodeA rfl rfl rfl).1 rfl

/-- C5: when the stored payload for the requested soul fails to parse,
the get handler emits no injection and no fabricated value, the catch
branch logs the error, and nothing escapes the handler (onGet is a
total function: the parse failure is consumed by the catch). -/
theorem c5_malformed_treated_absent (st : MyState) (msg : GetMsg) (qs : String)
    (hconn : st.connected = true) (hsoul : msg.soulField = some qs)
    (hne : qs.isEmpty = false)
    (hrow : rowLookup st.table qs = some Stored.malformed) :
    onGet st msg = { injections := [], errorLogged := true } := by
  simp [onGet, getBody, hsoul, hne, hconn, hrow, parseStored]

/-- Witness for C5 at a concrete store holding one malformed row. -/
theorem c5_malformed_treated_absent_witness :
    onGet myBad qMsg = { injections := [], errorLogged := true } :=
  c5_malformed_treated_absent myBad qMsg "s" rfl rfl rfl rfl

/-- C6 counterexample: a mutation event whose node carries only an
undefined-valued field still issues a store call: the handler checks
only that the node is a truthy object, and JSON.stringify drops the
undefined field, so a row for entity s is written with an empty field
map, refuting the no-store-call claim. -/
theorem c6_undefined_value_still_writes :
    onPutCalls msgUndefField = [[("s", Json.obj [])]] ∧
    ¬ onPutCalls msgUndefField = [] := by
  decide

/-- C6 amended: an event with no put member issues no store call, and
entries whose node is a primitive (undefined, null, or any non-object
value) are skipped by the batch loop; but an event whose node is an
object keeps its entry even when every field value is undefined, so
such events still reach the store. -/
theorem c6_nonobject_nodes_discarded (m : PutMsg) (s : String) (p : JSPrim)
    (rest : List (String × JSVal)) :
    (m.putMap = none → onPutCalls m = []) ∧
    batchOf { putMap := some ((s, JSVal.prim p) :: rest) }
      = batchOf { putMap := some rest } := by
  constructor
  · intro h
    rcases m with ⟨pm⟩
    cases h
    rfl
  · cases p <;>
      simp [batchOf, JSVal.truthy, JSPrim.truthy, JSVal.typeofObject]

/-- Witness for the amended C6 theorem at a concrete empty message and
a concrete primitive entry. -/
theorem c6_nonobject_nodes_discarded_witness :
    (({ putMap := none } : PutMsg).putMap = none →
      onPutCalls { putMap := none } = []) ∧
    batchOf { putMap := some [("s", JSVal.prim JSPrim.undef)] }
      = batchOf { putMap := some [] } :=
  c6_nonobject_nodes_discarded { putMap := none } "s" JSPrim.undef []

/-- Number of in-flight writes for entity s grows by one at each
arrival of the concrete mutation message. -/
theorem inflightFor_arrive_msgA (st : FlightState) :
    inflightFor "s" (flightStep st (FlightEv.arrive msgA))
      = inflightFor "s" st + 1 := by
  have h : (onPutCalls msgA).countP (fun b => b.any (fun e => e.1 == "s")) = 1 := by
    decide
  simp [flightStep, inflightFor, List.countP_append, h]

/-- C7 counterexample: two put events for the same entity id arriving
before either database execute resolves leave two writes to the same
row in flight at once, refuting the at-most-one-in-flight claim. -/
theorem c7_concurrent_writes_same_id :
    inflightFor "s" (runFlight { inflight := [] }
        [FlightEv.arrive msgA, FlightEv.arrive msgB]) = 2 ∧
    ¬ inflightFor "s" (runFlight { inflight := [] }
        [FlightEv.arrive msgA, FlightEv.arrive msgB]) ≤ 1 := by
  decide

/-- C7 amended: the put handler serializes nothing: every arrival
starts its own store write immediately, so the number of concurrent
in-flight writes to the same row is unbounded: n back-to-back arrivals
of the same-entity mutation leave n writes in flight. -/
theorem c7_inflight_writes_unbounded (n : Nat) :
    inflightFor "s" (runFlight { inflight := [] }
        (List.replicate n (FlightEv.arrive msgA))) = n := by
  suffices h : ∀ st : FlightState,
      inflightFor "s" (runFlight st (List.replicate n (FlightEv.arrive msgA)))
        = inflightFor "s" st + n by
    have h0 := h { inflight := [] }
    simpa [inflightFor] using h0
  induction n with
  | zero => intro st; simp [runFlight]
  | succ k ih =>
    intro st
    rw [List.replicate_succ]
    show inflightFor "s" (runFlight (flightStep st (FlightEv.arrive msgA))
        (List.replicate k (FlightEv.arrive msgA))) = inflightFor "s" st + (k + 1)
    rw [ih, inflightFor_arrive_msgA]
    omega

/-- C8 counterexample: with entity s holding an accepted mutation that
never became durable (it arrived during an outage), invoking the
shutdown handler performs zero store upserts: the handler only closes
the pool and the server and exits, so the claimed one-upsert-per-
pending-entity drain does not happen and the data is lost without any
per-entity logging. -/
theorem c8_shutdown_never_drains :
    rowLookup (runEvents my0 [BusEv.connDown, BusEv.mutate msgA]).table "s"
        = none ∧
    (sigintActs false).all (fun a => !isStoreWrite a) = true ∧
    (sigintActs false).countP (fun a => isStoreWrite a) = 0 ∧
    ¬ (sigintActs false).countP (fun a => isStoreWrite a) = 1 := by
  decide

/-- C8 amended: the SIGINT handlers close the database handle when
present, close the HTTP server and exit; in either branch they issue
no store write of any kind, so nothing pending is drained at
shutdown. -/
theorem c8_shutdown_writes_nothing (dbNull : Bool) :
    (sigintActs dbNull).countP (fun a => isStoreWrite a) = 0 := by
  cases dbNull <;> decide

/-- C9: every storage-adapter operation is total at its interface: for
every connection state (client null, disconnected, failing query) and
every key and value, the get, put and del of src/gun-relay.js and the
get and put of src/unnamed/part_001 resolve (never an error), and get
resolves to null when the client is null, the flag is down, the query
fails, or the row is absent. -/
theorem c9_adapter_interface_total (st : Conn) (k : String) (v : JSVal) :
    (gunStorageGet st k).isOk = true ∧
    (gunStoragePut st k v).isOk = true ∧
    (gunStorageDel st k).isOk = true ∧
    (p1AdapterGet st k).isOk = true ∧
    (p1AdapterPut st k v).isOk = true ∧
    (st.clientNull = true → gunStorageGet st k = .ok none) ∧
    (st.connected = false → gunStorageGet st k = .ok none) ∧
    (st.failing = true → gunStorageGet st k = .ok none) ∧
    (rowLookup st.table k = none → gunStorageGet st k = .ok none) := by
  rcases st with ⟨cn, co, fl, tb⟩
  refine ⟨?_, ?_, ?_, ?_, ?_, ?_, ?_, ?_, ?_⟩ <;>
    cases cn <;> cases co <;> cases fl <;>
      simp [gunStorageGet, gunStoragePut, gunStorageDel, p1AdapterGet,
        p1AdapterPut, querySelectValue, queryUpsertWhole, queryDeleteKey,
        Except.isOk, Except.toBool] <;>
    first
      | rfl
      | (intro h; simp [h])
      | (cases h2 : pgPutParam v <;> simp [Except.isOk, Except.toBool])
      | (cases h2 : jsonStringify v <;> simp [Except.isOk, Except.toBool])

/-- Witness for C9 at a concrete healthy state, key and value. -/
theorem c9_adapter_interface_total_witness :
    (gunStorageGet conn0 "k").isOk = true ∧
    (gunStoragePut conn0 "k" nodeA).isOk = true ∧
    (gunStorageDel conn0 "k").isOk = true ∧
    (p1AdapterGet conn0 "k").isOk = true ∧
    (p1AdapterPut conn0 "k" nodeA).isOk = true ∧
    (conn0.clientNull = true → gunStorageGet conn0 "k" = .ok none) ∧
    (conn0.connected = false → gunStorageGet conn0 "k" = .ok none) ∧
    (conn0.failing = true → gunStorageGet conn0 "k" = .ok none) ∧
    (rowLookup conn0.table "k" = none → gunStorageGet conn0 "k" = .ok none) :=
  c9_adapter_interface_total conn0 "k" nodeA

/-- C10: the CORS origin callbacks grant access to every request
origin: the src/gun-relay.js callback answers null and true in both
branches (the non-listed branch only warns first), and the
src/unnamed/part_000 callback allows unconditionally; the warning runs
exactly when a present origin is neither the wildcard nor listed. -/
theorem c10_cors_allows_every_origin (allowed : List String)
    (origin : Option String) :
    (corsOriginGunRelay allowed origin).1 = { err := none, allow := true } ∧
    corsOriginMySQL origin = { err := none, allow := true } ∧
    (corsOriginGunRelay allowed origin).2
      = (!originFalsy origin && !allowed.contains "*"
          && !listedOrigin allowed origin) := by
  refine ⟨?_, rfl, ?_⟩
  · unfold corsOriginGunRelay
    split <;> rfl
  · have hrw : (!originFalsy origin && !allowed.contains "*"
        && !listedOrigin allowed origin)
      = !(originFalsy origin || allowed.contains "*"
          || listedOrigin allowed origin) := by
      simp [Bool.not_or, Bool.and_assoc]
    rw [hrw]
    unfold corsOriginGunRelay
    cases h : (originFalsy origin || allowed.contains "*"
        || listedOrigin allowed origin) <;> simp [h]

end GunRelay
